import Mathlib

/-!
# Verification of the dashnew condition-monitoring core

Shallow embedding of the anomaly-detection / health-scoring engine
(`src/models/anomaly_detector.py`), its configuration
(`src/config/config.py`, `src/config/maintenance_config.py`) and the
telemetry simulator (`src/core/simulator.py`), together with proofs of the
behavioural properties stated in the specification.

Conventions:
* Python floats are embedded as `ℚ` (all constants in the code are decimal
  literals, so rational arithmetic is exact).
* Python dicts returned by the detectors are embedded as structures; the
  `status` string field becomes the inductive `DStatus`.
* Machine-learning model inference (IsolationForest / DBSCAN predictions)
  is treated as an oracle parameter: the claims under verification only
  depend on the surrounding control flow and the deterministic rule checks.
* Timestamps are embedded as rational numbers of hours (the code divides
  `total_seconds()` by 3600 before comparing with the update interval).
-/

/-! ## Configuration (src/config/config.py, src/config/maintenance_config.py) -/

/-- One entry of `MONITORING_PARAMS[...]['current_phases']`
(src/config/config.py lines 48-52). -/
structure PhaseCfg where
  minv : ℚ
  maxv : ℚ
  warning : ℚ
  critical : ℚ
deriving DecidableEq

/-- `MONITORING_PARAMS['VIM_11_21']['current_phases']['phase_a']`:
`{'min': 0, 'max': 5, 'warning': 4.5, 'critical': 4.8}`. -/
def vimPhaseCfg : PhaseCfg := { minv := 0, maxv := 5, warning := 9/2, critical := 24/5 }

/-- `MAINTENANCE_THRESHOLDS['controller_voltage']['dropout_warning']`
(src/config/maintenance_config.py line 20). -/
def dropout_warning : ℚ := 2

/-- `MAINTENANCE_THRESHOLDS['controller_voltage']['dropout_critical']`
(src/config/maintenance_config.py line 21). -/
def dropout_critical : ℚ := 4

/-- `MAINTENANCE_THRESHOLDS['transition_time']['increase_warning']`
(src/config/maintenance_config.py line 35). -/
def increase_warning : ℚ := 20

/-- `MAINTENANCE_THRESHOLDS['transition_time']['increase_critical']`
(src/config/maintenance_config.py line 36). -/
def increase_critical : ℚ := 40

/-- `PREDICTIVE_CONFIG['model_update_interval']` in hours
(src/config/config.py line 111). -/
def model_update_interval : ℚ := 24

/-- `PREDICTIVE_CONFIG['anomaly_detection']['min_samples']`
(src/config/config.py line 115). -/
def min_samples : ℕ := 1000

/-! ## Detection results (src/models/anomaly_detector.py)

Every detection call returns a dict with a `status` string and an
`anomalies` list.  The anomaly records themselves carry many fields; for
the health aggregator only their number and `type` tag matter, so family
detection results are embedded with `List String` of type tags. -/

/-- The status strings a detection call can return. -/
inductive DStatus where
  | ok
  | no_model
  | insufficient_data
  | error
deriving DecidableEq, BEq

/-- Result dict of a family detection call: `{"status": ..., "anomalies": [...]}`. -/
structure DetectResult where
  status : DStatus
  anomalies : List String
deriving DecidableEq

/-! ## Health aggregator (get_machine_health_status, lines 775-888) -/

/-- `phase_health = 100 - min(100, len(phase_anomalies) * 10)` (line 807). -/
def phase_health (p : ℕ) : ℚ := 100 - min 100 ((p : ℚ) * 10)

/-- `controller_health = 100 - min(100, len(controller_anomalies) * 15)` (line 808). -/
def controller_health (c : ℕ) : ℚ := 100 - min 100 ((c : ℚ) * 15)

/-- `electrical_health = (phase_health * 0.6 + controller_health * 0.4)` (line 809). -/
def electrical_health (p c : ℕ) : ℚ := phase_health p * (6/10) + controller_health c * (4/10)

/-- `mechanical_health = 100 - min(100, len(transition_anomalies) * 20)` (line 812). -/
def mechanical_health (t : ℕ) : ℚ := 100 - min 100 ((t : ℚ) * 20)

/-- `overall_health = electrical_health * 0.7 + mechanical_health * 0.3` (line 815). -/
def overall_health (p c t : ℕ) : ℚ := electrical_health p c * (7/10) + mechanical_health t * (3/10)

/-- `condition_level = 'high' if overall_health < 70 else ('medium' if overall_health < 85 else 'low')`
(line 841). -/
def condition_level (overall : ℚ) : String :=
  if overall < 70 then "high" else if overall < 85 then "medium" else "low"

/-- The two dict shapes `get_machine_health_status` can return: the success
dict (lines 849-867, health scores, anomaly counts and condition level; the
recommendation list and next-maintenance date are external-collaborator
output and are not part of any claim) and the error dict
(lines 794-798 / 884-888) with its `health_score` field. -/
inductive HealthStatus where
  | ok (overall electrical mechanical : ℚ)
      (phase_count controller_count transition_count : ℕ)
      (condition : String)
  | error (message : String) (health_score : ℚ)
deriving DecidableEq

/-- `r["status"] in ["ok", "no_model", "insufficient_data"]` — the statuses
tolerated by the aggregator guard at lines 792-793. -/
def statusTolerated (s : DStatus) : Bool :=
  decide (s = DStatus.ok) || decide (s = DStatus.no_model) ||
    decide (s = DStatus.insufficient_data)

/-- `get_machine_health_status` (lines 785-867) as a function of the three
family detection results: the guard at lines 792-798 aborts with the error
dict when any status is not tolerated, otherwise the health scores are
computed from the anomaly counts (lines 800-815, 841). -/
def get_machine_health_status (pr cr tr : DetectResult) : HealthStatus :=
  if !statusTolerated pr.status || !statusTolerated cr.status || !statusTolerated tr.status then
    HealthStatus.error "Error en alguno de los análisis de subsistemas" 0
  else
    let p := pr.anomalies.length
    let c := cr.anomalies.length
    let t := tr.anomalies.length
    HealthStatus.ok (overall_health p c t) (electrical_health p c) (mechanical_health t)
      p c t (condition_level (overall_health p c t))

/-! ## Aggregate dispatch paths (detect_controller_anomalies with
`controller_id=None`, lines 468-498, and detect_transition_anomalies with
`transition_type=None`, lines 625-637)

Both loops call the per-controller (resp. per-transition-type) detector and
extend the combined anomaly list only when the inner result has
`status == "ok"` and a non-empty anomaly list; every other inner result —
including `status == "error"` — is silently skipped, and the aggregate dict
is returned with `status: "ok"`.  The controller aggregate returns the error
dict only when the controller-list query itself raises (lines 496-498),
which we embed as an `Except` input. -/

/-- `detect_controller_anomalies(machine_id, None, ...)` (lines 468-498).
`ctrlQuery` is the `SELECT DISTINCT controller_id` query result (or its
exception); `detectOne` is the recursive per-controller call. -/
def detect_controller_anomalies_all (ctrlQuery : Except String (List String))
    (detectOne : String → DetectResult) : DetectResult :=
  match ctrlQuery with
  | Except.error _ => { status := DStatus.error, anomalies := [] }
  | Except.ok controllers =>
    let all := controllers.foldl (fun acc ctrl =>
      let r := detectOne ctrl
      if r.status = DStatus.ok ∧ 0 < r.anomalies.length then acc ++ r.anomalies else acc) []
    { status := DStatus.ok, anomalies := all }

/-- `detect_transition_anomalies(machine_id, None, ...)` (lines 625-637):
loops over the two fixed transition types. -/
def detect_transition_anomalies_all (detectOne : String → DetectResult) : DetectResult :=
  let all := ["normal_to_reverse", "reverse_to_normal"].foldl (fun acc trans =>
    let r := detectOne trans
    if r.status = DStatus.ok ∧ 0 < r.anomalies.length then acc ++ r.anomalies else acc) []
  { status := DStatus.ok, anomalies := all }

/-- `get_machine_health_status` composed with the aggregate dispatch used
for the controller and transition families (lines 787-789 call the two
aggregates with `controller_id=None` / `transition_type=None`). -/
def get_machine_health_status_full (pr : DetectResult)
    (ctrlQuery : Except String (List String))
    (detectCtrl detectTrans : String → DetectResult) : HealthStatus :=
  get_machine_health_status pr
    (detect_controller_anomalies_all ctrlQuery detectCtrl)
    (detect_transition_anomalies_all detectTrans)

/-! ## Transition-family detector (detect_transition_anomalies, lines 610-773) -/

/-- One `long_transition` anomaly record (lines 724-732); the timestamp and
the derived increase percentage are omitted. -/
structure TransAnomaly where
  transition_time : ℚ
  nominal_time : ℚ
  severity : String
deriving DecidableEq

/-- The `transition_time` entry the code means to read at line 708
(`self.config['transition_time'][transition_type]['nominal']`). -/
structure TransCfg where
  nominal : ℚ
deriving DecidableEq

/-- `AnomalyDetector.__init__` (lines 40-51) assigns only `db`, `models`,
`scalers` and `last_trained`; no `config` attribute is ever assigned
anywhere in the class, so the attribute read `self.config` at line 708
raises `AttributeError`.  The absent attribute is embedded as `none`. -/
def detector_transition_config : Option TransCfg := none

/-- The long-transition rule (lines 706-733): a duration strictly above
`nominal_time * (1 + increase_warning/100)` yields a `long_transition`
anomaly, with severity `critical` when it is also strictly above
`nominal_time * (1 + increase_critical/100)`, else `warning`. -/
def long_transition_rule (nominal_time : ℚ) (times : List ℚ) : List TransAnomaly :=
  let warning_threshold := nominal_time * (1 + increase_warning / 100)
  let critical_threshold := nominal_time * (1 + increase_critical / 100)
  times.filterMap (fun time_value =>
    if time_value > warning_threshold then
      some { transition_time := time_value, nominal_time := nominal_time,
             severity := if time_value > critical_threshold then "critical" else "warning" }
    else none)

/-- Transition-family detection result, with `TransAnomaly` payloads. -/
structure TransDetectResult where
  status : DStatus
  anomalies : List TransAnomaly
deriving DecidableEq

/-- `detect_transition_anomalies` for a specific transition type
(lines 639-773), in a call on which the DBSCAN model reports no outliers
(so the duplicate-timestamp guard at lines 719-723 never suppresses a rule
anomaly): after the model guard (lines 643-646) and the minimum-data guard
(line 681), the statistical rule section begins by reading `self.config`
(line 708); since that attribute is absent the read raises, and the
`except` clause at lines 771-773 converts this to the error dict.  The
`some` branch embeds the behaviour the rule section would have if the
attribute held a transition configuration. -/
def detect_transition_anomalies_code (modelPresent : Bool) (times : List ℚ) :
    TransDetectResult :=
  if modelPresent = false then { status := DStatus.no_model, anomalies := [] }
  else if times.length < 5 then { status := DStatus.insufficient_data, anomalies := [] }
  else
    match detector_transition_config with
    | none => { status := DStatus.error, anomalies := [] }
    | some cfg => { status := DStatus.ok, anomalies := long_transition_rule cfg.nominal times }

/-- The intended `detect_transition_anomalies`: identical to
`detect_transition_anomalies_code` except that the rule section reads the
machine's transition-time configuration
(`MONITORING_PARAMS[...]['transition_time'][...]['nominal']`, 6 seconds for
both directions of both machines, src/config/config.py lines 66-69 and
92-95) — the lookup the code's `self.config` at line 708 can never perform
because `AnomalyDetector` has no `config` attribute. -/
def detect_transition_anomalies_intended (modelPresent : Bool) (times : List ℚ) :
    TransDetectResult :=
  if modelPresent = false then { status := DStatus.no_model, anomalies := [] }
  else if times.length < 5 then { status := DStatus.insufficient_data, anomalies := [] }
  else { status := DStatus.ok, anomalies := long_transition_rule 6 times }

/-! ## Controller-family voltage-drop rule (detect_controller_anomalies,
lines 553-576) -/

/-- One `voltage_drop` anomaly record (lines 567-575). -/
structure VoltAnomaly where
  voltage : ℚ
  voltage_drop : ℚ
  severity : String
deriving DecidableEq

/-- The rule-based voltage-drop check of `detect_controller_anomalies`
(lines 553-576): `nominal_voltage` is read from
`MAINTENANCE_THRESHOLDS['controller_voltage']['dropout_warning']`
(line 555), the drop is `nominal_voltage - voltage`, and an anomaly is
recorded only when the drop strictly exceeds `dropout_warning` itself (with
severity `critical` when it exceeds `dropout_critical`); the loop inspects
the first `min(20, len(recent_data))` samples. -/
def voltage_drop_anomalies (voltages : List ℚ) : List VoltAnomaly :=
  let nominal_voltage := dropout_warning
  (voltages.take 20).filterMap (fun voltage =>
    let vdrop := nominal_voltage - voltage
    if vdrop > dropout_warning then
      some { voltage := voltage, voltage_drop := vdrop,
             severity := if vdrop > dropout_critical then "critical" else "warning" }
    else none)

/-! ## Retraining policy and training guard (train_phase_current_model,
lines 82-157, and the model guard of detect_phase_current_anomalies,
lines 337-372) -/

/-- The detector state: the key sets of `self.models` and `self.scalers`
and the `self.last_trained` map (key to training timestamp, in hours); the
fitted estimator objects themselves are irrelevant to the claims. -/
structure DetectorState where
  models : List String
  scalers : List String
  last_trained : List (String × ℚ)
deriving DecidableEq

/-- `key in self.last_trained` plus the read `self.last_trained[key]`. -/
def lookup_last_trained (s : DetectorState) (key : String) : Option ℚ :=
  (s.last_trained.find? (fun kv => kv.1 == key)).map (fun kv => kv.2)

/-- `key = f"{machine_id}_phase_current"` (line 93). -/
def phase_key (machine_id : String) : String := machine_id ++ "_phase_current"

/-- The body of `train_phase_current_model` after the interval guard
(lines 104-157): with fewer than `min_samples` historical rows it returns
False without touching the state (lines 123-125); otherwise the fitted
model, scaler and training time are stored under the key (lines 143-146)
and it returns True.  `n_samples` is `len(df)` for the training window. -/
def train_phase_current_body (s : DetectorState) (key : String) (now : ℚ)
    (n_samples : ℕ) : Bool × DetectorState :=
  if n_samples < min_samples then (false, s)
  else (true, { models := key :: s.models, scalers := key :: s.scalers,
                last_trained := (key, now) :: s.last_trained })

/-- `train_phase_current_model` (lines 82-157): when the model was trained
before, retraining is not forced, and fewer than `model_update_interval`
hours have elapsed since (`hours_since_train < interval`, line 100), it
returns False immediately without touching the state (lines 96-102);
otherwise it proceeds to the training body.  `now` is the current time in
hours. -/
def train_phase_current_model (s : DetectorState) (machine_id : String)
    (force : Bool) (now : ℚ) (n_samples : ℕ) : Bool × DetectorState :=
  let key := phase_key machine_id
  match lookup_last_trained s key, force with
  | some last_train_time, false =>
    if now - last_train_time < model_update_interval then (false, s)
    else train_phase_current_body s key now n_samples
  | _, _ => train_phase_current_body s key now n_samples

/-- The model guard of `detect_phase_current_anomalies` (lines 337-372):
when no model or scaler is stored for the key, training is attempted
(without force); if it fails the call returns the `no_model` dict with an
empty anomaly list (lines 350-354).  Otherwise the call proceeds: fewer
than 10 recent rows give `insufficient_data` (lines 371-372), and the
model/rule analysis — embedded as the oracle `infer` — gives the `ok` dict.
Returns the result dict together with the possibly updated detector
state. -/
def detect_phase_current_anomalies (s : DetectorState) (machine_id : String)
    (now : ℚ) (n_samples : ℕ) (recent : List (ℚ × ℚ × ℚ))
    (infer : List (ℚ × ℚ × ℚ) → List String) : DetectResult × DetectorState :=
  let key := phase_key machine_id
  if key ∈ s.models ∧ key ∈ s.scalers then
    if recent.length < 10 then ({ status := DStatus.insufficient_data, anomalies := [] }, s)
    else ({ status := DStatus.ok, anomalies := infer recent }, s)
  else
    match train_phase_current_model s machine_id false now n_samples with
    | (false, s1) => ({ status := DStatus.no_model, anomalies := [] }, s1)
    | (true, s1) =>
      if recent.length < 10 then ({ status := DStatus.insufficient_data, anomalies := [] }, s1)
      else ({ status := DStatus.ok, anomalies := infer recent }, s1)

/-! ## Simulator (src/core/simulator.py) -/

/-- The arguments of one `db.save_alert(...)` call
(src/core/simulator.py lines 351-358, 373-380, 395-402); the numeric
formatting inside description strings is dropped. -/
structure Alert where
  machine_id : String
  alert_type : String
  severity : String
  value : ℚ
  threshold : ℚ
  description : String
deriving DecidableEq

/-- `behavior['degradation_rate']` (src/core/simulator.py line 180). -/
def degradation_rate : ℚ := 1/1000

/-- The wear update of one simulation tick (src/core/simulator.py
lines 226-228): add the fixed degradation rate, clamp at 1.0. -/
def tick_wear (w : ℚ) : ℚ :=
  let w' := w + degradation_rate
  if w' > 1 then 1 else w'

/-- The simulator behaviour state touched by maintenance
(src/core/simulator.py lines 177-184); timestamps are abstract `ℕ`. -/
structure Behavior where
  accumulated_wear : ℚ
  last_maintenance : ℕ
deriving DecidableEq

/-- The `maintenance_details` record built by `simulate_maintenance`
(src/core/simulator.py lines 438-444); the code formats the three numbers
as percentage strings, we keep the raw values. -/
structure MaintRecord where
  initial_wear : ℚ
  final_wear : ℚ
  improvement : ℚ
deriving DecidableEq

/-- `MachineSimulator.simulate_maintenance` (src/core/simulator.py
lines 423-448): `improvement = 0.7 + 0.2 * accumulated_wear`, wear is
multiplied by `(1 - improvement)` and `last_maintenance` is set to `now`. -/
def simulate_maintenance (b : Behavior) (now : ℕ) : Behavior × MaintRecord :=
  let improvement := 7/10 + 1/5 * b.accumulated_wear
  let old_wear := b.accumulated_wear
  let new_wear := old_wear * (1 - improvement)
  ({ accumulated_wear := new_wear, last_maintenance := now },
   { initial_wear := old_wear, final_wear := new_wear, improvement := improvement })

/-- The `current_spike` branch of `_simulate_faults`
(src/core/simulator.py lines 360-380): the chosen phase is set to
`max * spike_factor`; an alert is saved iff the new value exceeds the
warning threshold, with severity `critical` iff it also exceeds the critical
threshold, and the recorded `threshold` field is the warning threshold
(line 378). -/
def simulate_current_spike (machine_id : String) (cfg : PhaseCfg) (phase : String)
    (spike_factor : ℚ) : ℚ × List Alert :=
  let newVal := cfg.maxv * spike_factor
  let alerts :=
    if newVal > cfg.warning then
      [{ machine_id := machine_id, alert_type := "current_spike",
         severity := if newVal > cfg.critical then "critical" else "warning",
         value := newVal, threshold := cfg.warning,
         description := "Pico de corriente detectado en " ++ phase }]
    else []
  (newVal, alerts)

/-- The `phase_imbalance` branch of `_simulate_faults`
(src/core/simulator.py lines 382-402).  `rb`, `rc` are the two
`random.random()` draws; `pa` is the current `phase_a` (the `base_value`).
The spread-percentage computation at lines 391-392 divides by `base_value`;
Python raises `ZeroDivisionError` when it is zero, embedded as the `error`
case.  On success the new phase values and the optional alert are
returned. -/
def simulate_phase_imbalance (machine_id : String) (pa rb rc : ℚ) :
    Except String ((ℚ × ℚ × ℚ) × List Alert) :=
  let base_value := pa
  let pb := base_value * (6/10 + 2/10 * rb)
  let pc := base_value * (13/10 + 2/10 * rc)
  if base_value = 0 then
    Except.error "ZeroDivisionError: float division by zero"
  else
    let hi := max pa (max pb pc)
    let lo := min pa (min pb pc)
    let max_diff_percent := 100 * (hi - lo) / base_value
    let alerts :=
      if max_diff_percent > 25 then
        [{ machine_id := machine_id, alert_type := "phase_imbalance",
           severity := "warning", value := max_diff_percent, threshold := 25,
           description := "Desequilibrio entre fases detectado" }]
      else []
    Except.ok ((pa, pb, pc), alerts)

/-- The idle-state phase-current update (src/core/simulator.py
lines 313-316): `base_min + 0.1 * base_min * random.random() * wear_factor`. -/
def idle_phase_value (cfg : PhaseCfg) (rand wear_factor : ℚ) : ℚ :=
  cfg.minv + 1/10 * cfg.minv * rand * wear_factor

/-- The slice of the per-machine simulator state touched by the
phase-imbalance fault path: live phase currents, accumulated wear and the
`running` flag of the simulation loop. -/
structure SimState where
  phase_a : ℚ
  phase_b : ℚ
  phase_c : ℚ
  accumulated_wear : ℚ
  running : Bool
deriving DecidableEq

/-- One iteration of `_simulation_loop` (src/core/simulator.py
lines 211-235) in a tick whose fault draw selects `phase_imbalance`:
`_update_machine_state` (line 220) calls `_simulate_faults` (line 327); if
the fault simulation raises, the exception propagates to the `except`
clause of the loop (lines 233-235), which logs and sets `running = False`
(the wear increment at lines 226-228 is skipped); otherwise the new phase
values are stored and wear is incremented and clamped. -/
def simulation_step_imbalance (s : SimState) (machine_id : String) (rb rc : ℚ) : SimState :=
  match simulate_phase_imbalance machine_id s.phase_a rb rc with
  | Except.error _ => { s with running := false }
  | Except.ok ((pa, pb, pc), _) =>
    { s with phase_a := pa, phase_b := pb, phase_c := pc,
             accumulated_wear := tick_wear s.accumulated_wear }

/-! ## Helper bounds -/

lemma sub_min_nonneg (x : ℚ) : 0 ≤ 100 - min 100 x := by
  have h := min_le_left (100 : ℚ) x
  linarith

lemma sub_min_le (x : ℚ) (hx : 0 ≤ x) : 100 - min 100 x ≤ 100 := by
  have h : (0 : ℚ) ≤ min 100 x := le_min (by norm_num) hx
  linarith

lemma phase_health_bounds (p : ℕ) : 0 ≤ phase_health p ∧ phase_health p ≤ 100 := by
  unfold phase_health
  have hx : (0 : ℚ) ≤ (p : ℚ) * 10 := by positivity
  exact ⟨sub_min_nonneg _, sub_min_le _ hx⟩

lemma controller_health_bounds (c : ℕ) : 0 ≤ controller_health c ∧ controller_health c ≤ 100 := by
  unfold controller_health
  have hx : (0 : ℚ) ≤ (c : ℚ) * 15 := by positivity
  exact ⟨sub_min_nonneg _, sub_min_le _ hx⟩

lemma mechanical_health_bounds (t : ℕ) : 0 ≤ mechanical_health t ∧ mechanical_health t ≤ 100 := by
  unfold mechanical_health
  have hx : (0 : ℚ) ≤ (t : ℚ) * 20 := by positivity
  exact ⟨sub_min_nonneg _, sub_min_le _ hx⟩

lemma electrical_health_bounds (p c : ℕ) :
    0 ≤ electrical_health p c ∧ electrical_health p c ≤ 100 := by
  obtain ⟨h1, h2⟩ := phase_health_bounds p
  obtain ⟨h3, h4⟩ := controller_health_bounds c
  unfold electrical_health
  constructor <;> nlinarith

lemma overall_health_bounds (p c t : ℕ) :
    0 ≤ overall_health p c t ∧ overall_health p c t ≤ 100 := by
  obtain ⟨h1, h2⟩ := electrical_health_bounds p c
  obtain ⟨h3, h4⟩ := mechanical_health_bounds t
  unfold overall_health
  constructor <;> nlinarith

/-! ## Claim theorems -/

/-- C1: for every valid machine id, when `get_machine_health_status` succeeds
(all three family statuses tolerated) it returns
`overall_health ∈ [0,100]` with
`overall_health = 0.7*electrical_health + 0.3*mechanical_health`,
`electrical_health = 0.6*phase_health + 0.4*controller_health`,
`phase_health = 100 - min(100, 10*#phase_anomalies)`,
`controller_health = 100 - min(100, 15*#controller_anomalies)` and
`mechanical_health = 100 - min(100, 20*#transition_anomalies)`. -/
theorem C1_overall_health_formula (pr cr tr : DetectResult) (p c t : ℕ)
    (hp : statusTolerated pr.status = true)
    (hc : statusTolerated cr.status = true)
    (ht : statusTolerated tr.status = true)
    (hpn : p = pr.anomalies.length)
    (hcn : c = cr.anomalies.length)
    (htn : t = tr.anomalies.length) :
    get_machine_health_status pr cr tr =
      HealthStatus.ok (overall_health p c t) (electrical_health p c) (mechanical_health t)
        p c t (condition_level (overall_health p c t)) ∧
    overall_health p c t = (7/10) * electrical_health p c + (3/10) * mechanical_health t ∧
    electrical_health p c = (6/10) * phase_health p + (4/10) * controller_health c ∧
    phase_health p = 100 - min 100 (10 * (p : ℚ)) ∧
    controller_health c = 100 - min 100 (15 * (c : ℚ)) ∧
    mechanical_health t = 100 - min 100 (20 * (t : ℚ)) ∧
    0 ≤ overall_health p c t ∧ overall_health p c t ≤ 100 := by
  subst hpn; subst hcn; subst htn
  refine ⟨?_, ?_, ?_, ?_, ?_, ?_, (overall_health_bounds _ _ _).1, (overall_health_bounds _ _ _).2⟩
  · simp [get_machine_health_status, hp, hc, ht]
  · unfold overall_health; ring
  · unfold electrical_health; ring
  · unfold phase_health; ring_nf
  · unfold controller_health; ring_nf
  · unfold mechanical_health; ring_nf

/-- C2 counterexample: an `error` status produced by the per-controller call
inside the all-controllers aggregate dispatch does NOT abort
`get_machine_health_status`: the aggregate skips the inner error result and
returns status `ok`, so the health computation succeeds with a perfect
score instead of the claimed error result with `health_score 0`. -/
theorem C2_inner_error_not_aborted :
    ((fun _ : String => ({ status := DStatus.error, anomalies := [] } : DetectResult)) "ctrl_1").status
        = DStatus.error ∧
    get_machine_health_status_full ⟨DStatus.ok, []⟩ (Except.ok ["ctrl_1"])
        (fun _ => ⟨DStatus.error, []⟩) (fun _ => ⟨DStatus.ok, []⟩) =
      HealthStatus.ok 100 100 100 0 0 0 "low" := by
  refine ⟨rfl, ?_⟩
  simp [get_machine_health_status_full, get_machine_health_status,
    detect_controller_anomalies_all, detect_transition_anomalies_all,
    statusTolerated, List.foldl_cons, List.foldl_nil]
  norm_num [overall_health, electrical_health, mechanical_health,
    phase_health, controller_health, condition_level, min_def]

/-- C2 (amended): whenever any of the three family detection results handed
to `get_machine_health_status` has status `error`, it aborts and returns the
error dict with `health_score 0` (statuses `no_model` and
`insufficient_data` are tolerated); however, an `error` status arising from
a per-controller or per-transition-type call inside the aggregate dispatch
paths is silently skipped — provided the controller-list query succeeds,
both aggregates always return status `ok`, so such inner errors never abort
the health computation. -/
theorem C2_error_abort (pr cr tr : DetectResult) (ctrls : List String)
    (detectCtrl detectTrans : String → DetectResult)
    (h : pr.status = DStatus.error ∨ cr.status = DStatus.error ∨ tr.status = DStatus.error) :
    get_machine_health_status pr cr tr =
      HealthStatus.error "Error en alguno de los análisis de subsistemas" 0 ∧
    (detect_controller_anomalies_all (Except.ok ctrls) detectCtrl).status = DStatus.ok ∧
    (detect_transition_anomalies_all detectTrans).status = DStatus.ok := by
  refine ⟨?_, rfl, rfl⟩
  have he : statusTolerated DStatus.error = false := rfl
  rcases h with h | h | h <;> simp [get_machine_health_status, h, he]

/-- Witness for C2 (amended) at a concrete input: the phase-current family
errored, so the aggregator aborts; both aggregates report `ok`. -/
theorem C2_error_abort_witness :
    get_machine_health_status ⟨DStatus.error, []⟩ ⟨DStatus.ok, []⟩ ⟨DStatus.ok, []⟩ =
      HealthStatus.error "Error en alguno de los análisis de subsistemas" 0 ∧
    (detect_controller_anomalies_all (Except.ok ["ctrl_1", "ctrl_2"])
        (fun _ => ⟨DStatus.no_model, []⟩)).status = DStatus.ok ∧
    (detect_transition_anomalies_all (fun _ => ⟨DStatus.insufficient_data, []⟩)).status
        = DStatus.ok :=
  C2_error_abort ⟨DStatus.error, []⟩ ⟨DStatus.ok, []⟩ ⟨DStatus.ok, []⟩
    ["ctrl_1", "ctrl_2"] (fun _ => ⟨DStatus.no_model, []⟩)
    (fun _ => ⟨DStatus.insufficient_data, []⟩) (Or.inl rfl)

/-- Witness for C1 at a concrete success input: one phase anomaly, two
controller anomalies, zero transition anomalies. -/
theorem C1_overall_health_formula_witness :
    get_machine_health_status ⟨DStatus.ok, ["isolation_forest"]⟩
        ⟨DStatus.ok, ["voltage_drop", "voltage_instability"]⟩
        ⟨DStatus.no_model, []⟩ =
      HealthStatus.ok (overall_health 1 2 0) (electrical_health 1 2) (mechanical_health 0)
        1 2 0 (condition_level (overall_health 1 2 0)) ∧
    0 ≤ overall_health 1 2 0 ∧ overall_health 1 2 0 ≤ 100 := by
  have h := C1_overall_health_formula ⟨DStatus.ok, ["isolation_forest"]⟩
    ⟨DStatus.ok, ["voltage_drop", "voltage_instability"]⟩ ⟨DStatus.no_model, []⟩
    1 2 0 (by decide) (by decide) (by decide) (by decide) (by decide) (by decide)
  exact ⟨h.1, h.2.2.2.2.2.2⟩

/-- C4: injecting a `current_spike` fault with spike factor 1.5 on a phase
configured with max=5, warning=4.5, critical=4.8 sets the phase value to
7.5 and records exactly one alert of type `current_spike` with severity
`critical`, whose recorded `threshold` field is the warning threshold 4.5
(not the breached critical threshold). -/
theorem C4_current_spike_alert :
    simulate_current_spike "VIM_11_21" vimPhaseCfg "phase_a" (3/2) =
      (15/2,
       [{ machine_id := "VIM_11_21", alert_type := "current_spike",
          severity := "critical", value := 15/2, threshold := 9/2,
          description := "Pico de corriente detectado en phase_a" }]) := by
  norm_num [simulate_current_spike, vimPhaseCfg]
  rfl

/-- C5: `simulate_maintenance` computes `improvement = 0.7 + 0.2 * wear`,
multiplies the accumulated wear by `(1 - improvement)` and sets
`last_maintenance` to now; the returned record reports before and after
wear; wear strictly decreases when it was positive and stays 0 at 0. -/
theorem C5_simulate_maintenance (b : Behavior) (now : ℕ) :
    (simulate_maintenance b now).2.improvement = 7/10 + 1/5 * b.accumulated_wear ∧
    (simulate_maintenance b now).1.accumulated_wear
        = b.accumulated_wear * (1 - (7/10 + 1/5 * b.accumulated_wear)) ∧
    (simulate_maintenance b now).1.last_maintenance = now ∧
    (simulate_maintenance b now).2.initial_wear = b.accumulated_wear ∧
    (simulate_maintenance b now).2.final_wear
        = (simulate_maintenance b now).1.accumulated_wear ∧
    (0 < b.accumulated_wear →
      (simulate_maintenance b now).1.accumulated_wear < b.accumulated_wear) ∧
    (b.accumulated_wear = 0 → (simulate_maintenance b now).1.accumulated_wear = 0) := by
  refine ⟨rfl, rfl, rfl, rfl, rfl, ?_, ?_⟩
  · intro h
    simp only [simulate_maintenance]
    nlinarith [mul_pos h h]
  · intro h
    simp [simulate_maintenance, h]

/-- Witness for C5 at wear 1/2: the maintenance strictly reduces the wear. -/
theorem C5_simulate_maintenance_witness :
    (0 : ℚ) < 1/2 ∧
    (simulate_maintenance { accumulated_wear := 1/2, last_maintenance := 0 } 5).1.accumulated_wear
      < 1/2 :=
  ⟨by norm_num,
   (C5_simulate_maintenance { accumulated_wear := 1/2, last_maintenance := 0 } 5).2.2.2.2.2.1
     (by norm_num)⟩

/-- C6: accumulated wear stays within [0,1] — a simulation tick adds the
fixed degradation rate and clamps at 1.0, hence never decreases wear and
keeps it in [0,1]; `simulate_maintenance` never drives wear below 0 (and
never increases it).  These are the only two writes to `accumulated_wear`
in src/core/simulator.py (lines 226-228 and line 435). -/
theorem C6_wear_invariant (w : ℚ) (b : Behavior) (now : ℕ)
    (h0 : 0 ≤ w) (h1 : w ≤ 1)
    (hb0 : 0 ≤ b.accumulated_wear) (hb1 : b.accumulated_wear ≤ 1) :
    (w ≤ tick_wear w ∧ 0 ≤ tick_wear w ∧ tick_wear w ≤ 1) ∧
    (0 ≤ (simulate_maintenance b now).1.accumulated_wear ∧
     (simulate_maintenance b now).1.accumulated_wear ≤ b.accumulated_wear) := by
  constructor
  · simp only [tick_wear, degradation_rate]
    split <;> refine ⟨?_, ?_, ?_⟩ <;> linarith
  · simp only [simulate_maintenance]
    constructor <;> nlinarith

/-- Witness for C6 at wear 1/2 for both operations. -/
theorem C6_wear_invariant_witness :
    ((1/2 : ℚ) ≤ tick_wear (1/2) ∧ 0 ≤ tick_wear (1/2) ∧ tick_wear (1/2) ≤ 1) ∧
    (0 ≤ (simulate_maintenance { accumulated_wear := 1/2, last_maintenance := 3 } 7).1.accumulated_wear ∧
     (simulate_maintenance { accumulated_wear := 1/2, last_maintenance := 3 } 7).1.accumulated_wear ≤ 1/2) :=
  C6_wear_invariant (1/2) { accumulated_wear := 1/2, last_maintenance := 3 } 7
    (by norm_num) (by norm_num) (by norm_num) (by norm_num)

/-- C10: if a `phase_imbalance` fault is injected while `phase_a = 0`
(reachable at idle, because the configured phase minimum is 0 and the idle
update then yields 0 whatever the noise draw and wear factor), the
spread-percentage computation divides by zero; the exception propagates out
of the per-tick update and the simulation loop sets `running = false`,
permanently stopping that machine's simulation. -/
theorem C10_phase_imbalance_div_zero (s : SimState) (machine_id : String) (rb rc : ℚ)
    (h : s.phase_a = 0) :
    simulate_phase_imbalance machine_id s.phase_a rb rc =
      Except.error "ZeroDivisionError: float division by zero" ∧
    simulation_step_imbalance s machine_id rb rc = { s with running := false } ∧
    (∀ rand wear_factor : ℚ, idle_phase_value vimPhaseCfg rand wear_factor = 0) := by
  have he : simulate_phase_imbalance machine_id s.phase_a rb rc =
      Except.error "ZeroDivisionError: float division by zero" := by
    simp [simulate_phase_imbalance, h]
  refine ⟨he, ?_, ?_⟩
  · simp [simulation_step_imbalance, he]
  · intro rand wear_factor
    simp [idle_phase_value, vimPhaseCfg]

/-- Witness for C10 at a concrete idle state with `phase_a = 0`. -/
theorem C10_phase_imbalance_div_zero_witness :
    simulate_phase_imbalance "VIM_11_21"
        (SimState.mk 0 0 0 (1/4) true).phase_a (1/3) (2/3) =
      Except.error "ZeroDivisionError: float division by zero" ∧
    simulation_step_imbalance (SimState.mk 0 0 0 (1/4) true) "VIM_11_21" (1/3) (2/3) =
      { SimState.mk 0 0 0 (1/4) true with running := false } ∧
    (∀ rand wear_factor : ℚ, idle_phase_value vimPhaseCfg rand wear_factor = 0) :=
  C10_phase_imbalance_div_zero (SimState.mk 0 0 0 (1/4) true) "VIM_11_21" (1/3) (2/3) rfl

/-- C3 (code bug): with a trained model present and recent window
[7.3, 6, 6, 6, 6] — whose first duration strictly exceeds the warning
threshold 6 * (1 + 20/100) = 7.2 — `detect_transition_anomalies` returns
the error dict with no anomalies, because the `self.config` read at
line 708 raises AttributeError before the rule runs; the intended rule
(strict comparisons) produces exactly one `warning` long_transition anomaly
at 7.3, none at a duration exactly equal to the threshold 7.2, and a
`critical` one at 8.5 > 6 * (1 + 40/100) = 8.4. -/
theorem C3_long_transition_rule :
    detect_transition_anomalies_code true [73/10, 6, 6, 6, 6] =
      { status := DStatus.error, anomalies := [] } ∧
    detect_transition_anomalies_intended true [73/10, 6, 6, 6, 6] =
      { status := DStatus.ok,
        anomalies := [{ transition_time := 73/10, nominal_time := 6,
                        severity := "warning" }] } ∧
    detect_transition_anomalies_intended true [36/5, 6, 6, 6, 6] =
      { status := DStatus.ok, anomalies := [] } ∧
    detect_transition_anomalies_intended true [17/2, 6, 6, 6, 6] =
      { status := DStatus.ok,
        anomalies := [{ transition_time := 17/2, nominal_time := 6,
                        severity := "critical" }] } := by
  refine ⟨rfl, ?_, ?_, ?_⟩ <;>
    norm_num [detect_transition_anomalies_intended, long_transition_rule,
      increase_warning, increase_critical, List.filterMap]

/-- C9: the rule-based voltage-drop check computes the drop as
`dropout_warning - voltage` and flags only when that drop strictly exceeds
`dropout_warning` itself, so for every recent sample with non-negative
voltage it never produces a voltage_drop anomaly; with `dropout_warning = 2`
the rule fires exactly when the voltage is negative. -/
theorem C9_voltage_drop_never_fires (voltages : List ℚ)
    (h : ∀ v ∈ voltages, 0 ≤ v) :
    voltage_drop_anomalies voltages = [] ∧
    (∀ v : ℚ, dropout_warning - v > dropout_warning ↔ v < 0) ∧
    dropout_warning = 2 := by
  refine ⟨?_, ?_, rfl⟩
  · unfold voltage_drop_anomalies
    rw [List.filterMap_eq_nil_iff]
    intro v hv
    have hv0 : 0 ≤ v := h v (List.take_subset _ _ hv)
    have hne : ¬(dropout_warning - v > dropout_warning) := by
      unfold dropout_warning; linarith
    simp [hne]
  · intro v
    unfold dropout_warning
    constructor <;> intro hv <;> linarith

/-- Witness for C9 on the sample window [24, 22, 0]: no voltage_drop
anomaly is produced. -/
theorem C9_voltage_drop_never_fires_witness :
    voltage_drop_anomalies [24, 22, 0] = [] ∧
    ((2 : ℚ) < 2 - (-1) ↔ ((-1 : ℚ) < 0)) := by
  have h := C9_voltage_drop_never_fires [24, 22, 0]
    (by intro v hv; fin_cases hv <;> norm_num)
  refine ⟨h.1, ?_⟩
  have h2 := h.2.1 (-1)
  unfold dropout_warning at h2
  exact h2

/-- C7: if the historical training window holds fewer than `min_samples`
rows, `train_phase_current_model` returns False and persists no model or
scaler (the detector state is unchanged), and a subsequent
`detect_phase_current_anomalies` call with no previously trained model
returns status `no_model` with an empty anomaly list. -/
theorem C7_insufficient_training_data (s : DetectorState) (machine_id : String)
    (force : Bool) (now : ℚ) (n_samples : ℕ)
    (hn : n_samples < min_samples) :
    train_phase_current_model s machine_id force now n_samples = (false, s) ∧
    (phase_key machine_id ∉ s.models →
      ∀ (recent : List (ℚ × ℚ × ℚ)) (infer : List (ℚ × ℚ × ℚ) → List String),
        detect_phase_current_anomalies s machine_id now n_samples recent infer =
          ({ status := DStatus.no_model, anomalies := [] }, s)) := by
  have hbody : ∀ key, train_phase_current_body s key now n_samples = (false, s) := by
    intro key
    simp [train_phase_current_body, hn]
  have htrain : ∀ f : Bool,
      train_phase_current_model s machine_id f now n_samples = (false, s) := by
    intro f
    simp only [train_phase_current_model]
    cases lookup_last_trained s (phase_key machine_id) <;> cases f <;>
      simp [hbody]
  refine ⟨htrain force, ?_⟩
  intro hm recent infer
  have hcond : ¬(phase_key machine_id ∈ s.models ∧ phase_key machine_id ∈ s.scalers) :=
    fun hcon => hm hcon.1
  simp only [detect_phase_current_anomalies, if_neg hcond, htrain false]

/-- Witness for C7: an empty detector state with a 10-row training window
(below the 1000-sample minimum). -/
theorem C7_insufficient_training_data_witness :
    train_phase_current_model ⟨[], [], []⟩ "VIM_11_21" false 0 10 = (false, ⟨[], [], []⟩) ∧
    detect_phase_current_anomalies ⟨[], [], []⟩ "VIM_11_21" 0 10 [] (fun _ => []) =
      ({ status := DStatus.no_model, anomalies := [] }, ⟨[], [], []⟩) := by
  have h := C7_insufficient_training_data ⟨[], [], []⟩ "VIM_11_21" false 0 10
    (by norm_num [min_samples])
  exact ⟨h.1, h.2 (by simp) [] (fun _ => [])⟩

/-- C8: a phase-current model is actually retrained (the call returns True)
only if it has never been trained in this detector instance, or the caller
passes force, or the elapsed time since its last training reaches or
exceeds `model_update_interval` (24 hours); in every other case the call
skips training and returns False without touching the stored model. -/
theorem C8_retraining_policy (s : DetectorState) (machine_id : String)
    (force : Bool) (now : ℚ) (n_samples : ℕ) :
    ((train_phase_current_model s machine_id force now n_samples).1 = true →
      lookup_last_trained s (phase_key machine_id) = none ∨ force = true ∨
      ∃ t, lookup_last_trained s (phase_key machine_id) = some t ∧
        model_update_interval ≤ now - t) ∧
    (∀ t, lookup_last_trained s (phase_key machine_id) = some t → force = false →
      now - t < model_update_interval →
      train_phase_current_model s machine_id force now n_samples = (false, s)) ∧
    model_update_interval = 24 := by
  refine ⟨?_, ?_, rfl⟩
  · intro htr
    simp only [train_phase_current_model] at htr
    cases hfind : lookup_last_trained s (phase_key machine_id) with
    | none => exact Or.inl rfl
    | some t =>
      cases force with
      | true => exact Or.inr (Or.inl rfl)
      | false =>
        rw [hfind] at htr
        by_cases hlt : now - t < model_update_interval
        · simp [hlt] at htr
        · exact Or.inr (Or.inr ⟨t, rfl, not_lt.mp hlt⟩)
  · intro t hfind hforce hlt
    subst hforce
    simp only [train_phase_current_model]
    rw [hfind]
    simp [hlt]

/-- Witness for C8: a model trained one hour ago, without force, is not
retrained even with plenty of data. -/
theorem C8_retraining_policy_witness :
    train_phase_current_model ⟨["VIM_11_21_phase_current"], ["VIM_11_21_phase_current"],
        [("VIM_11_21_phase_current", 0)]⟩ "VIM_11_21" false 1 2000 =
      (false, ⟨["VIM_11_21_phase_current"], ["VIM_11_21_phase_current"],
        [("VIM_11_21_phase_current", 0)]⟩) :=
  (C8_retraining_policy ⟨["VIM_11_21_phase_current"], ["VIM_11_21_phase_current"],
      [("VIM_11_21_phase_current", 0)]⟩ "VIM_11_21" false 1 2000).2.1 0
    (by simp [lookup_last_trained, phase_key]) rfl (by norm_num [model_update_interval])
